import Mathlib

/-!  Verification of the statement-matching and scoring engine of the
résumé–job matching system: a shallow embedding of
`matcher_model/models/vector_store/vector_db.py`,
`matcher_model/processors/statement_processor.py`,
`matcher_model/processors/score_processor.py` and `matcher_model/matcher.py`,
together with theorems settling the specification's claims.

Python floats are embedded as elements of a linear ordered field
(instantiated at `ℚ` for executable witnesses and at `ℝ` where the sigmoid
normalization or FAISS L2-normalization is involved); Python lists become
`List`; Python dicts become association lists in insertion order; raised
exceptions become `Except` errors.  -/

/-- `models/data_models.py`: `JobRequirement` (pydantic model); `type` is
the category tag string, `must_have` or `nice_to_have`. -/
structure JobRequirement where
  text : String
  type : String
  category : Option String
  deriving DecidableEq

/-- A searchable statement record as stored in the vector store metadata:
the fields of the statement dict that retrieval and matching actually read
(`text` and `resume_id`; the remaining dict entries are presentation-only
and never inspected by the matching core). -/
structure Stmt where
  text : String
  resume_id : String
  deriving DecidableEq

/-- `models/data_models.py`: `MatchResult`.  `matched_statements` keeps
each statement together with the score the pipeline attached to it. -/
structure MatchResult (α : Type) where
  requirement : JobRequirement
  matched_statements : List (Stmt × α)
  score : α
  deriving DecidableEq

/-- `models/data_models.py`: `Skill`. -/
structure Skill where
  name : String
  years : ℚ
  level : String
  description : String
  evidence : List String
  deriving DecidableEq

/-- `models/data_models.py`: `ResumeStatements`. -/
structure ResumeStatements where
  personal_info : List String
  education : List String
  certifications : List String
  personality_traits : List String
  skills : List Skill
  deriving DecidableEq

/-- One element of the `resumes` list consumed by `Matcher.match`: a dict
with keys `id`, `statements` and `category`. -/
structure Resume where
  id : String
  statements : ResumeStatements
  category : String
  deriving DecidableEq

/-- `models/data_models.py`: `JobDescription`, restricted to the two
requirement lists — the only fields the matching core reads. -/
structure JobDescription where
  must_have_requirements : List JobRequirement
  nice_to_have_requirements : List JobRequirement
  deriving DecidableEq

/-- The `weights` entry of the matcher config. -/
structure Weights (α : Type) where
  must_have : α
  nice_to_have : α
  deriving DecidableEq

/-- One entry of the per-category match lists built in `Matcher.match` and
`Matcher.match_new`: the dict with keys `requirement` and `matches` (the
latter field is called `match_result` here because `matches` is reserved
in Lean). -/
structure ReqMatch (α : Type) where
  requirement : JobRequirement
  match_result : MatchResult α
  deriving DecidableEq

/-- The per-resume `matches` dict with keys `must_have` / `nice_to_have`. -/
structure Matches (α : Type) where
  must_have : List (ReqMatch α)
  nice_to_have : List (ReqMatch α)
  deriving DecidableEq

/-- The per-resume score dict produced by
`ScoreProcessor.aggregate_resume_scores`. -/
structure ScoreInfo (α : Type) where
  score : α
  must_have_coverage : α
  nice_to_have_coverage : α
  statement_coverage : α
  deriving DecidableEq

/-- One entry of the ranked output of `Matcher._prepare_ranked_results`. -/
structure RankedResume (α : Type) where
  id : String
  score : α
  must_have_coverage : α
  nice_to_have_coverage : α
  statement_coverage : α
  requirement_matches : Matches α
  category : String
  deriving DecidableEq

/-- Failure modes of the embedded code, named after the spec's error
taxonomy: `ShapeMismatch` is the `ValueError` raised by `VectorDB.add`,
`OutOfRange` is the `IndexError` raised by a Python list subscript, and
`PersistenceError` stands for missing or unreadable persisted index files
at `VectorDB.load` time. -/
inductive MatcherError where
  | ShapeMismatch
  | OutOfRange
  | PersistenceError
  deriving DecidableEq

/-- FAISS index metric: `faiss.IndexFlatIP` or `faiss.IndexFlatL2`. -/
inductive IndexType where
  | IP
  | L2
  deriving DecidableEq

/-- `vector_db.py`: the `VectorDB` state — the FAISS index (metric,
dimension, stored vector buffer) and the parallel `metadata` list. -/
structure VectorDB where
  index_type : IndexType
  dimension : ℕ
  index_vectors : List (List ℝ)
  metadata : List Stmt

/-- `VectorDB.__init__`: an empty index of the given metric and dimension. -/
def VectorDB.init (dimension : ℕ) (index_type : IndexType) : VectorDB :=
  { index_type := index_type, dimension := dimension, index_vectors := [], metadata := [] }

/-- `faiss.normalize_L2` on one row: divide the row by its Euclidean norm.
FAISS mutates the caller's array in place; the embedding returns the new
row contents. -/
noncomputable def normalize_L2 (v : List ℝ) : List ℝ :=
  v.map (fun x => x / Real.sqrt ((v.map (fun y => y * y)).sum))

/-- `VectorDB.add`: raises `ValueError` when the vector and metadata counts
differ; for an inner-product index first L2-normalizes the caller's vector
array in place; then appends the vectors to the FAISS index and the
metadata to the parallel list.  The second component of the result is the
caller-visible content of the `vectors` argument after the call. -/
noncomputable def VectorDB.add (db : VectorDB) (vectors : List (List ℝ))
    (payloads : List Stmt) : Except MatcherError (VectorDB × List (List ℝ)) :=
  if vectors.length ≠ payloads.length then
    .error .ShapeMismatch
  else
    let vs := if db.index_type = IndexType.IP then vectors.map normalize_L2 else vectors
    .ok ({ db with index_vectors := db.index_vectors ++ vs,
                   metadata := db.metadata ++ payloads }, vs)

/-- Python list subscript `xs[i]` as executed by `VectorDB.get_metadata`:
nonnegative positions index from the front, positions in `[-n, 0)` index
from the back, anything else raises `IndexError`. -/
def py_list_get (l : List Stmt) (i : Int) : Except MatcherError Stmt :=
  if h : 0 ≤ i ∧ i < (l.length : Int) then
    .ok (l.get ⟨i.toNat, by omega⟩)
  else if h2 : -(l.length : Int) ≤ i ∧ i < 0 then
    .ok (l.get ⟨((l.length : Int) + i).toNat, by omega⟩)
  else
    .error .OutOfRange

/-- `VectorDB.get_metadata`: `[self.metadata[i] for i in indices]`. -/
def VectorDB.get_metadata (db : VectorDB) (indices : List Int) :
    Except MatcherError (List Stmt) :=
  indices.mapM (py_list_get db.metadata)

/-- One persisted artifact: the FAISS index file written by
`faiss.write_index`, or the pickled metadata list. -/
inductive FileData where
  | indexData (index_type : IndexType) (dimension : ℕ) (vectors : List (List ℝ))
  | metadataData (metadata : List Stmt)

/-- The file system visible to `VectorDB.save` and `VectorDB.load`: a map
from paths to file contents. -/
def FS : Type := String → Option FileData

/-- `VectorDB.save`: writes the FAISS index to `path + ".index"` and the
pickled metadata list to `path + ".metadata"`. -/
def VectorDB.save (db : VectorDB) (path : String) (fs : FS) : FS :=
  fun p =>
    if p = path ++ ".index" then
      some (.indexData db.index_type db.dimension db.index_vectors)
    else if p = path ++ ".metadata" then
      some (.metadataData db.metadata)
    else fs p

/-- `VectorDB.load`: reads both artifacts back and rebuilds the instance,
taking `index` (metric, dimension, vectors) and `metadata` from the two
files; fails when either file is missing or has the wrong kind. -/
def VectorDB.load (path : String) (fs : FS) : Except MatcherError VectorDB :=
  match fs (path ++ ".index"), fs (path ++ ".metadata") with
  | some (.indexData it d vs), some (.metadataData ms) =>
      .ok { index_type := it, dimension := d, index_vectors := vs, metadata := ms }
  | _, _ => .error .PersistenceError

/-- `StatementProcessor.normalize_score`:
`2.0 / (1.0 + np.exp(-score/2)) - 1.0`. -/
noncomputable def normalize_score (score : ℝ) : ℝ :=
  2 / (1 + Real.exp (-score / 2)) - 1

/-- Python `max(xs, default=d)`: the maximum of the list, or the default
when the list is empty. -/
def max_default {α : Type} [LinearOrder α] (d : α) : List α → α
  | [] => d
  | x :: xs => xs.foldl max x

/-- `list.sort(key=lambda x: x['score'], reverse=True)`: Python's stable
sort, descending on the score component (ties keep original order). -/
def sort_pairs_desc {α : Type} [LinearOrder α] (l : List (Stmt × α)) :
    List (Stmt × α) :=
  List.insertionSort (fun a b => b.2 ≤ a.2) l

/-- `StatementProcessor.batch_find_matching_statements` (per-candidate
retrieval mode), parametrized by an opaque composite retrieval function
(bi-encoder embedding + `vector_db.search` + `get_metadata` — code that is
byte-identical in both retrieval modes) and an opaque cross-encoder
`rerank`.  The cross-encoder scores are stored raw — this mode never calls
`normalize_score`.  For each requirement the retrieved statements are
filtered to the current resume, sorted by score descending, and a
`MatchResult` is produced even when no statement survives the filter
(`score=max(..., default=0.0)`).  The result dict is keyed by requirement
text; requirement texts are taken distinct, as duplicates would collide in
the Python dict. -/
def batch_find_matching_statements {α : Type} [LinearOrderedField α]
    (retrieve : String → List Stmt) (rerank : String → String → α)
    (requirements : List JobRequirement) (current_resume_id : String) :
    List (String × MatchResult α) :=
  requirements.map (fun req =>
    let scored := (retrieve req.text).map (fun s => (s, rerank req.text s.text))
    let own := scored.filter (fun p => p.1.resume_id == current_resume_id)
    let sorted := sort_pairs_desc own
    (req.text,
      { requirement := req
        matched_statements := sorted
        score := max_default 0 (sorted.map (fun p => p.2)) }))

/-- The insertion-order key list of the Python dict built by the
`resume_groups` loop of `batch_find_all_matching_statements`: resume ids
in first-occurrence order, skipping ids already seen. -/
def first_occurrence_keys {α : Type} (seen : List String) :
    List (Stmt × α) → List String
  | [] => []
  | p :: ps =>
    if seen.contains p.1.resume_id then first_occurrence_keys seen ps
    else p.1.resume_id :: first_occurrence_keys (p.1.resume_id :: seen) ps

/-- The `resume_groups` dict of `batch_find_all_matching_statements`:
scored statements grouped by `resume_id`, keys in first-occurrence order,
each group keeping the original order of its entries. -/
def group_by_resume {α : Type} (l : List (Stmt × α)) :
    List (String × List (Stmt × α)) :=
  (first_occurrence_keys [] l).map
    (fun rid => (rid, l.filter (fun p => p.1.resume_id == rid)))

/-- The per-requirement result construction of
`StatementProcessor.batch_find_all_matching_statements` (bulk retrieval
mode): cross-encoder scores are normalized immediately via
`normalize_score`, grouped by `resume_id`, each group sorted by score
descending, and a `MatchResult` is created only for resumes owning at
least one retrieved statement. -/
noncomputable def batch_find_all_for_req (retrieve : String → List Stmt)
    (rerank : String → String → ℝ) (req : JobRequirement) :
    List (String × MatchResult ℝ) :=
  let scored := (retrieve req.text).map
    (fun s => (s, normalize_score (rerank req.text s.text)))
  (group_by_resume scored).map (fun g =>
    let sorted := sort_pairs_desc g.2
    (g.1,
      { requirement := req
        matched_statements := sorted
        score := max_default 0 (sorted.map (fun p => p.2)) }))

/-- `StatementProcessor.batch_find_all_matching_statements`: the bulk-mode
result, keyed by requirement text and then by resume id. -/
noncomputable def batch_find_all_matching_statements
    (retrieve : String → List Stmt) (rerank : String → String → ℝ)
    (requirements : List JobRequirement) :
    List (String × List (String × MatchResult ℝ)) :=
  requirements.map (fun req =>
    (req.text, batch_find_all_for_req retrieve rerank req))

/-- `ScoreProcessor.calculate_statement_coverage_multiplier`. -/
def calculate_statement_coverage_multiplier {α : Type} [LinearOrderedField α]
    (matched_statements total_statements : ℕ) : α :=
  if total_statements = 0 then 0
  else max (1/5) ((matched_statements : α) / (total_statements : α))

/-- `ScoreProcessor.get_total_statements`: one per skill, one per skill
evidence item, one per education / certification / personality-trait item
(`personal_info` is not counted). -/
def get_total_statements (rs : ResumeStatements) : ℕ :=
  (rs.skills.map (fun skill => 1 + skill.evidence.length)).sum
    + rs.education.length + rs.certifications.length
    + rs.personality_traits.length

/-- `ScoreProcessor.calculate_requirement_coverage_multiplier`. -/
def calculate_requirement_coverage_multiplier {α : Type} [LinearOrderedField α]
    (matched_requirements total_requirements : ℕ) : α :=
  if total_requirements = 0 then 0
  else (matched_requirements : α) / (total_requirements : α)

/-- `[m['matches'].score for m in ... if m['matches'].score > 0.5]`:
the scores that clear the relevance threshold. -/
def covered_scores {α : Type} [LinearOrderedField α] (scores : List α) : List α :=
  scores.filter (fun s => decide ((1:α)/2 < s))

/-- The `must_have_coverage` value computed by
`ScoreProcessor.aggregate_resume_scores` for one candidate. -/
def must_have_cov {α : Type} [LinearOrderedField α]
    (jd : JobDescription) (ms : Matches α) : α :=
  calculate_requirement_coverage_multiplier
    (covered_scores (ms.must_have.map (fun m => m.match_result.score))).length
    jd.must_have_requirements.length

/-- The `nice_to_have_coverage` value computed by
`ScoreProcessor.aggregate_resume_scores` for one candidate. -/
def nice_to_have_cov {α : Type} [LinearOrderedField α]
    (jd : JobDescription) (ms : Matches α) : α :=
  calculate_requirement_coverage_multiplier
    (covered_scores (ms.nice_to_have.map (fun m => m.match_result.score))).length
    (max jd.nice_to_have_requirements.length 1)

/-- The `total_matches` count of `aggregate_resume_scores` (line 76): the
number of requirements, across both categories, whose best score exceeds
the 0.5 relevance threshold. -/
def total_matches_count {α : Type} [LinearOrderedField α]
    (ms : Matches α) : ℕ :=
  (covered_scores (ms.must_have.map (fun m => m.match_result.score))).length
    + (covered_scores (ms.nice_to_have.map (fun m => m.match_result.score))).length

/-- `np.mean` on a nonempty list (callers guard against the empty list). -/
def list_mean {α : Type} [LinearOrderedField α] (l : List α) : α :=
  l.sum / (l.length : α)

/-- The loop body of `ScoreProcessor.aggregate_resume_scores` for one
candidate: coverage computation, the hard must-have gate, the weighted
category means and the statement-coverage multiplier. -/
def score_resume {α : Type} [LinearOrderedField α] (w : Weights α)
    (jd : JobDescription) (total_statements : ℕ) (ms : Matches α) :
    ScoreInfo α :=
  let must_have_scores := ms.must_have.map (fun m => m.match_result.score)
  let nice_to_have_scores := ms.nice_to_have.map (fun m => m.match_result.score)
  let statement_coverage_multiplier :=
    calculate_statement_coverage_multiplier (total_matches_count ms) total_statements
  if must_have_cov jd ms < 3/10 then
    { score := 0, must_have_coverage := 0, nice_to_have_coverage := 0,
      statement_coverage := 0 }
  else
    let must_have_score :=
      if must_have_scores = [] then 0
      else list_mean must_have_scores * must_have_cov jd ms * w.must_have
    let nice_to_have_score :=
      if nice_to_have_scores = [] then 0
      else list_mean nice_to_have_scores * nice_to_have_cov jd ms * w.nice_to_have
    { score := (must_have_score + nice_to_have_score) * statement_coverage_multiplier
      must_have_coverage := must_have_cov jd ms
      nice_to_have_coverage := nice_to_have_cov jd ms
      statement_coverage := statement_coverage_multiplier }

/-- The `resume_statements_count[resume_id]` lookup of
`aggregate_resume_scores` (a `KeyError` in Python when the id is absent
from `resumes`; the embedding returns 0 there — the claims below only
concern ids that are present). -/
def resume_total_statements (resumes : List Resume) (rid : String) : ℕ :=
  ((resumes.find? (fun r => r.id == rid)).map
    (fun r => get_total_statements r.statements)).getD 0

/-- `ScoreProcessor.aggregate_resume_scores`: one `ScoreInfo` per entry of
`resume_matches`, in dict insertion order. -/
def aggregate_resume_scores {α : Type} [LinearOrderedField α] (w : Weights α)
    (jd : JobDescription) (resume_matches : List (String × Matches α))
    (resumes : List Resume) : List (String × ScoreInfo α) :=
  resume_matches.map (fun p =>
    (p.1, score_resume w jd (resume_total_statements resumes p.1) p.2))

/-- The ordering used by `_prepare_ranked_results`'s
`sort(key=lambda x: x['score'], reverse=True)`: score descending. -/
def rank_desc {α : Type} [LinearOrderedField α] (a b : RankedResume α) : Prop :=
  b.score ≤ a.score

instance {α : Type} [LinearOrderedField α] : DecidableRel (rank_desc (α := α)) :=
  fun a b => inferInstanceAs (Decidable (b.score ≤ a.score))

/-- The `resume_matches[resume_id]` dict lookup of
`_prepare_ranked_results` (a `KeyError` in Python for an absent id; the
embedding returns an empty `Matches` there — a case no caller exercises,
since the scores dict and the matches dict are built with the same keys). -/
def lookup_matches {α : Type} [LinearOrderedField α]
    (resume_matches : List (String × Matches α)) (rid : String) : Matches α :=
  ((resume_matches.find? (fun p => p.1 == rid)).map (fun p => p.2)).getD ⟨[], []⟩

/-- `next((r['category'] for r in resumes if r['id'] == resume_id), 'unknown')`. -/
def lookup_category (resumes : List Resume) (rid : String) : String :=
  ((resumes.find? (fun r => r.id == rid)).map (fun r => r.category)).getD "unknown"

/-- `Matcher._prepare_ranked_results`: keep the candidates with a strictly
positive score (in scores-dict order), attach their match details and
category, and stable-sort by score descending.  No truncation is applied. -/
def prepare_ranked_results {α : Type} [LinearOrderedField α]
    (resume_scores : List (String × ScoreInfo α))
    (resume_matches : List (String × Matches α)) (resumes : List Resume) :
    List (RankedResume α) :=
  let scored_resumes :=
    (resume_scores.filter (fun p => decide (0 < p.2.score))).map (fun p =>
      { id := p.1
        score := p.2.score
        must_have_coverage := p.2.must_have_coverage
        nice_to_have_coverage := p.2.nice_to_have_coverage
        statement_coverage := p.2.statement_coverage
        requirement_matches := lookup_matches resume_matches p.1
        category := lookup_category resumes p.1 })
  List.insertionSort rank_desc scored_resumes

/-- The `batch_results[req.text]` dict lookup of `Matcher.match` (never a
`KeyError`: `batch_find_matching_statements` returns an entry for every
requirement; the embedding's fallback is a zeroed `MatchResult`). -/
def lookup_match_result {α : Type} [LinearOrderedField α]
    (batch_results : List (String × MatchResult α)) (text : String) :
    MatchResult α :=
  ((batch_results.find? (fun p => p.1 == text)).map (fun p => p.2)).getD
    ⟨⟨"", "", none⟩, [], 0⟩

/-- The match-organization loop of `Matcher.match` (lines 39–45): every
requirement appends an entry to its category's list — whether or not any
statement matched it. -/
def organize_matches {α : Type} [LinearOrderedField α]
    (all_requirements : List (JobRequirement × String))
    (batch_results : List (String × MatchResult α)) : Matches α :=
  { must_have := (all_requirements.filter (fun q => q.2 == "must_have")).map
      (fun q => ⟨q.1, lookup_match_result batch_results q.1.text⟩)
    nice_to_have := (all_requirements.filter (fun q => q.2 == "nice_to_have")).map
      (fun q => ⟨q.1, lookup_match_result batch_results q.1.text⟩) }

/-- The `all_requirements` list built at the top of `Matcher.match` and
`Matcher.match_new`: must-have requirements tagged `"must_have"` followed
by nice-to-have requirements tagged `"nice_to_have"`. -/
def all_requirements_of (jd : JobDescription) : List (JobRequirement × String) :=
  jd.must_have_requirements.map (fun r => (r, "must_have"))
    ++ jd.nice_to_have_requirements.map (fun r => (r, "nice_to_have"))

/-- The per-resume body of `Matcher.match` (per-candidate retrieval mode):
run `batch_find_matching_statements` for all requirements restricted to
one resume and organize the results by category. -/
def collect_matches {α : Type} [LinearOrderedField α]
    (retrieve : String → List Stmt) (rerank : String → String → α)
    (jd : JobDescription) (rid : String) : Matches α :=
  organize_matches (all_requirements_of jd)
    (batch_find_matching_statements retrieve rerank
      ((all_requirements_of jd).map (fun q => q.1)) rid)

/-- `Matcher.match`: the per-candidate orchestration — collect matches for
every resume, aggregate scores, and rank. -/
def match_resumes {α : Type} [LinearOrderedField α]
    (retrieve : String → List Stmt) (rerank : String → String → α)
    (w : Weights α) (jd : JobDescription) (resumes : List Resume) :
    List (RankedResume α) :=
  let resume_matches :=
    resumes.map (fun r => (r.id, collect_matches retrieve rerank jd r.id))
  prepare_ranked_results (aggregate_resume_scores w jd resume_matches resumes)
    resume_matches resumes

/-- The spec's reading of `matched_statement_count` in claim C5 ("the
count of distinct matched requirement–statement pairs for this candidate
across both categories"), stated from the spec's words for comparison with
the code's requirement-level `total_matches` count: every stored
requirement–statement pair whose score clears the 0.5 relevance threshold
is counted once. -/
def spec_matched_statement_count {α : Type} [LinearOrderedField α]
    (ms : Matches α) : ℕ :=
  ((ms.must_have ++ ms.nice_to_have).map
    (fun m => (m.match_result.matched_statements.filter
      (fun p => decide ((1:α)/2 < p.2))).length)).sum

theorem one_add_exp_pos (x : ℝ) : 0 < 1 + Real.exp x := by
  have := Real.exp_pos x
  linarith

theorem normalize_score_lt_one (x : ℝ) : normalize_score x < 1 := by
  have hx := Real.exp_pos (-x / 2)
  have h1 := one_add_exp_pos (-x / 2)
  have h2 : 2 / (1 + Real.exp (-x / 2)) < 2 := by
    rw [div_lt_iff₀ h1]
    nlinarith
  unfold normalize_score
  linarith

theorem neg_one_lt_normalize_score (x : ℝ) : -1 < normalize_score x := by
  have h1 := one_add_exp_pos (-x / 2)
  have h2 : 0 < 2 / (1 + Real.exp (-x / 2)) := by positivity
  unfold normalize_score
  linarith

theorem normalize_score_strictMono : StrictMono normalize_score := by
  intro a b hab
  have hb := Real.exp_pos (-b / 2)
  have hlt : Real.exp (-b / 2) < Real.exp (-a / 2) :=
    Real.exp_lt_exp.mpr (by linarith)
  have h : 2 / (1 + Real.exp (-a / 2)) < 2 / (1 + Real.exp (-b / 2)) :=
    div_lt_div_of_pos_left (by norm_num) (by linarith) (by linarith)
  unfold normalize_score
  linarith

/-- C3: the score normalization function is exactly
`raw ↦ 2 / (1 + e^{-raw/2}) - 1`, its value lies strictly inside `(-1, 1)`
for every real input, and it is strictly increasing. -/
theorem normalize_score_spec :
    (∀ x : ℝ, normalize_score x = 2 / (1 + Real.exp (-x / 2)) - 1) ∧
    (∀ x : ℝ, -1 < normalize_score x ∧ normalize_score x < 1) ∧
    StrictMono normalize_score :=
  ⟨fun _ => rfl,
   fun x => ⟨neg_one_lt_normalize_score x, normalize_score_lt_one x⟩,
   normalize_score_strictMono⟩

/-- A job requirement used as concrete input below. -/
def reqPython : JobRequirement := ⟨"Python experience", "must_have", none⟩

/-- A candidate statement owned by resume `"A"`, used as concrete input. -/
def stmtPythonA : Stmt := ⟨"Python expert", "A"⟩

/-- C1: the two retrieval modes are NOT consistent.  On the same job
description (one requirement), the same corpus (one statement owned by
resume `"A"`), the same opaque retrieval and a reranker returning raw
score 3, per-candidate mode (`batch_find_matching_statements`, used by
`Matcher.match`) assigns the `(requirement, "A")` pair the RAW score 3,
while bulk mode (`batch_find_all_matching_statements`, used by
`Matcher.match_new`) assigns it `normalize_score 3 < 1 ≠ 3`: per-candidate
mode skips the sigmoid normalization that bulk mode applies, so raw and
normalized scores reach aggregation depending on the mode. -/
theorem retrieval_modes_disagree_on_normalization :
    batch_find_matching_statements (fun _ => [stmtPythonA]) (fun _ _ => (3:ℝ))
        [reqPython] "A"
      = [("Python experience",
          { requirement := reqPython, matched_statements := [(stmtPythonA, 3)],
            score := 3 })] ∧
    batch_find_all_matching_statements (fun _ => [stmtPythonA]) (fun _ _ => (3:ℝ))
        [reqPython]
      = [("Python experience",
          [("A", { requirement := reqPython,
                   matched_statements := [(stmtPythonA, normalize_score 3)],
                   score := normalize_score 3 })])] ∧
    normalize_score 3 < 1 ∧ normalize_score 3 ≠ 3 := by
  refine ⟨?_, ?_, normalize_score_lt_one 3, ?_⟩
  · simp [batch_find_matching_statements, sort_pairs_desc, max_default,
      reqPython, stmtPythonA, List.insertionSort, List.orderedInsert]
  · simp [batch_find_all_matching_statements, batch_find_all_for_req,
      group_by_resume, first_occurrence_keys, sort_pairs_desc, max_default,
      reqPython, stmtPythonA, List.insertionSort, List.orderedInsert]
  · intro h
    have h1 := normalize_score_lt_one 3
    rw [h] at h1
    norm_num at h1

theorem score_resume_gate {α : Type} [LinearOrderedField α] (w : Weights α)
    (jd : JobDescription) (total_statements : ℕ) (ms : Matches α)
    (hcov : must_have_cov jd ms < 3/10) :
    score_resume w jd total_statements ms =
      { score := 0, must_have_coverage := 0, nice_to_have_coverage := 0,
        statement_coverage := 0 } := by
  unfold score_resume
  rw [if_pos hcov]

/-- C2: for every candidate present in `resume_matches` (and among the
`resumes`) whose computed `must_have_coverage` is below 0.3,
`aggregate_resume_scores` reports `score = 0`, `must_have_coverage = 0`,
`nice_to_have_coverage = 0` and `statement_coverage = 0`, regardless of
the individual match scores. -/
theorem aggregate_gate_zeroes {α : Type} [LinearOrderedField α]
    (w : Weights α) (jd : JobDescription)
    (resume_matches : List (String × Matches α)) (resumes : List Resume)
    (rid : String) (ms : Matches α)
    (hmem : (rid, ms) ∈ resume_matches)
    (_hres : ∃ r ∈ resumes, r.id = rid)
    (hcov : must_have_cov jd ms < 3/10) :
    (rid, ({ score := 0, must_have_coverage := 0, nice_to_have_coverage := 0,
             statement_coverage := 0 } : ScoreInfo α))
      ∈ aggregate_resume_scores w jd resume_matches resumes := by
  have h : (rid, score_resume w jd (resume_total_statements resumes rid) ms)
      ∈ aggregate_resume_scores w jd resume_matches resumes := by
    unfold aggregate_resume_scores
    exact List.mem_map_of_mem _ hmem
  rwa [score_resume_gate w jd _ ms hcov] at h

/-- A resume with no statements at all, used as concrete input. -/
def resumeA : Resume := ⟨"A", ⟨[], [], [], [], []⟩, "engineering"⟩

/-- A job description with two must-have requirements, used as concrete
input. -/
def jdTwoMustHave : JobDescription :=
  ⟨[reqPython, ⟨"SQL experience", "must_have", none⟩], []⟩

/-- Witness for C2: a candidate matching neither must-have requirement has
coverage `0/2 = 0 < 0.3` and is reported with all-zero fields. -/
theorem aggregate_gate_zeroes_witness :
    ("A", ({ score := 0, must_have_coverage := 0, nice_to_have_coverage := 0,
             statement_coverage := 0 } : ScoreInfo ℚ))
      ∈ aggregate_resume_scores ⟨7/10, 3/10⟩ jdTwoMustHave
          [("A", ⟨[], []⟩)] [resumeA] :=
  aggregate_gate_zeroes ⟨7/10, 3/10⟩ jdTwoMustHave [("A", ⟨[], []⟩)] [resumeA]
    "A" ⟨[], []⟩ (by simp)
    ⟨resumeA, by simp, by simp [resumeA]⟩
    (by norm_num [must_have_cov, covered_scores, jdTwoMustHave,
      calculate_requirement_coverage_multiplier])

theorem cov_mult_total_zero {α : Type} [LinearOrderedField α] (m : ℕ) :
    calculate_requirement_coverage_multiplier (α := α) m 0 = 0 := by
  simp [calculate_requirement_coverage_multiplier]

theorem must_have_cov_of_empty {α : Type} [LinearOrderedField α]
    (jd : JobDescription) (ms : Matches α)
    (hjd : jd.must_have_requirements = []) : must_have_cov jd ms = 0 := by
  unfold must_have_cov
  rw [hjd]
  simp [calculate_requirement_coverage_multiplier]

/-- C10: when the job's must-have requirement list is empty, the
division-by-zero guard in `calculate_requirement_coverage_multiplier`
makes every candidate's `must_have_coverage` equal 0, the hard gate fires
for everyone, `aggregate_resume_scores` reports all-zero fields for every
candidate, and the ranked output of the per-candidate orchestration is
empty. -/
theorem empty_must_have_all_zero {α : Type} [LinearOrderedField α]
    (retrieve : String → List Stmt) (rerank : String → String → α)
    (w : Weights α) (jd : JobDescription) (resumes : List Resume)
    (resume_matches : List (String × Matches α)) (m : ℕ)
    (hjd : jd.must_have_requirements = []) :
    calculate_requirement_coverage_multiplier (α := α) m 0 = 0 ∧
    (∀ p ∈ aggregate_resume_scores w jd resume_matches resumes,
      p.2 = { score := 0, must_have_coverage := 0, nice_to_have_coverage := 0,
              statement_coverage := 0 }) ∧
    match_resumes retrieve rerank w jd resumes = [] := by
  have hgate : ∀ (ts : ℕ) (ms : Matches α),
      score_resume w jd ts ms =
        { score := 0, must_have_coverage := 0, nice_to_have_coverage := 0,
          statement_coverage := 0 } := by
    intro ts ms
    refine score_resume_gate w jd ts ms ?_
    rw [must_have_cov_of_empty jd ms hjd]
    norm_num
  have hagg : ∀ (rm : List (String × Matches α)),
      ∀ p ∈ aggregate_resume_scores w jd rm resumes,
        p.2 = ({ score := 0, must_have_coverage := 0, nice_to_have_coverage := 0,
                 statement_coverage := 0 } : ScoreInfo α) := by
    intro rm p hp
    unfold aggregate_resume_scores at hp
    obtain ⟨q, _, rfl⟩ := List.mem_map.mp hp
    exact hgate _ q.2
  refine ⟨cov_mult_total_zero m, hagg resume_matches, ?_⟩
  have hnil : List.filter (fun p => decide (0 < p.2.score))
      (aggregate_resume_scores w jd
        (resumes.map (fun r => (r.id, collect_matches retrieve rerank jd r.id)))
        resumes) = [] := by
    apply List.filter_eq_nil_iff.mpr
    intro p hp
    rw [hagg _ p hp]
    simp
  unfold match_resumes prepare_ranked_results
  simp only [hnil, List.map_nil, List.insertionSort]

/-- Witness for C10: a job with no must-have requirements and one
nice-to-have requirement yields all-zero scores and an empty ranking for a
concrete candidate. -/
theorem empty_must_have_all_zero_witness :
    calculate_requirement_coverage_multiplier (α := ℚ) 5 0 = 0 ∧
    (∀ p ∈ aggregate_resume_scores (α := ℚ) ⟨7/10, 3/10⟩
        ⟨[], [⟨"Kubernetes", "nice_to_have", none⟩]⟩
        [("A", ⟨[], []⟩)] [resumeA],
      p.2 = { score := 0, must_have_coverage := 0, nice_to_have_coverage := 0,
              statement_coverage := 0 }) ∧
    match_resumes (fun _ => []) (fun _ _ => (0:ℚ)) ⟨7/10, 3/10⟩
      ⟨[], [⟨"Kubernetes", "nice_to_have", none⟩]⟩ [resumeA] = [] :=
  empty_must_have_all_zero (fun _ => []) (fun _ _ => (0:ℚ)) ⟨7/10, 3/10⟩
    ⟨[], [⟨"Kubernetes", "nice_to_have", none⟩]⟩ [resumeA]
    [("A", ⟨[], []⟩)] 5 rfl

/-- A candidate whose single must-have requirement is matched by two
statements above the relevance threshold, used as concrete input. -/
def msTwoStatements : Matches ℚ :=
  ⟨[⟨reqPython,
     ⟨reqPython,
      [(⟨"Python expert", "A"⟩, 9/10), (⟨"built Python services", "A"⟩, 4/5)],
      9/10⟩⟩], []⟩

/-- C5 (amended): the statement-coverage multiplier equals 0 when
`total_statement_count = 0` and `max(0.2, m/t)` otherwise — hence is at
least 0.2 even when `m = 0` — where `m`, the count the code feeds in, is
the number of requirements across both categories whose best score exceeds
the 0.5 threshold (not the number of matched requirement–statement
pairs). -/
theorem statement_coverage_multiplier_spec {α : Type} [LinearOrderedField α]
    (m t : ℕ) (w : Weights α) (jd : JobDescription) (ts : ℕ) (ms : Matches α) :
    calculate_statement_coverage_multiplier (α := α) m 0 = 0 ∧
    (t ≠ 0 → calculate_statement_coverage_multiplier (α := α) m t
        = max (1/5) ((m : α) / (t : α)) ∧
      (1/5 : α) ≤ calculate_statement_coverage_multiplier (α := α) m t) ∧
    (¬ must_have_cov jd ms < 3/10 →
      (score_resume w jd ts ms).statement_coverage =
        calculate_statement_coverage_multiplier (total_matches_count ms) ts) := by
  refine ⟨by simp [calculate_statement_coverage_multiplier], fun ht => ?_, fun hcov => ?_⟩
  · have he : calculate_statement_coverage_multiplier (α := α) m t
        = max (1/5) ((m : α) / (t : α)) := by
      simp [calculate_statement_coverage_multiplier, ht]
    exact ⟨he, he ▸ le_max_left _ _⟩
  · unfold score_resume
    rw [if_neg hcov]

/-- Witness for C5 (amended): with no covered requirements and ten
statements the multiplier is still at least the 0.2 floor. -/
theorem statement_coverage_multiplier_spec_witness :
    (1/5 : ℚ) ≤ calculate_statement_coverage_multiplier (α := ℚ) 0 10 :=
  ((statement_coverage_multiplier_spec 0 10 ⟨7/10, 3/10⟩ ⟨[], []⟩ 0
    ⟨[], []⟩).2.1 (by decide)).2

/-- Counterexample for C5 as stated: the code's `matched_statement_count`
is NOT the count of distinct matched requirement–statement pairs.  A
candidate whose one must-have requirement is matched by two statements
above threshold, with four total statements, gets multiplier
`max(0.2, 1/4) = 1/4` from the code (one covered requirement), while the
claim's pair count is 2 and would give `max(0.2, 2/4) = 1/2`. -/
theorem statement_coverage_pair_count_cex :
    (score_resume (⟨7/10, 3/10⟩ : Weights ℚ) ⟨[reqPython], []⟩ 4
        msTwoStatements).statement_coverage = 1/4 ∧
    spec_matched_statement_count msTwoStatements = 2 ∧
    max (1/5 : ℚ) ((spec_matched_statement_count msTwoStatements : ℚ) / 4)
      = 1/2 ∧
    (1/4 : ℚ) ≠ 1/2 := by
  refine ⟨?_, ?_, ?_, by norm_num⟩
  · norm_num [score_resume, must_have_cov, nice_to_have_cov, covered_scores,
      total_matches_count, calculate_requirement_coverage_multiplier,
      calculate_statement_coverage_multiplier, msTwoStatements, reqPython]
  · norm_num [spec_matched_statement_count, msTwoStatements]
  · norm_num [spec_matched_statement_count, msTwoStatements]

instance {α : Type} [LinearOrderedField α] : IsTotal (RankedResume α) rank_desc :=
  ⟨fun a b => le_total b.score a.score⟩

instance {α : Type} [LinearOrderedField α] : IsTrans (RankedResume α) rank_desc :=
  ⟨fun _ _ _ hab hbc => le_trans hbc hab⟩

/-- C7 (amended): the ranked result of `_prepare_ranked_results` is sorted
by score descending (ties keep the scores-dict insertion order — Python's
stable sort — NOT owner id ascending), contains exactly the candidates
with strictly positive score, and has the full length of that set: no
`top_n` truncation is applied. -/
theorem prepare_ranked_results_spec {α : Type} [LinearOrderedField α]
    (resume_scores : List (String × ScoreInfo α))
    (resume_matches : List (String × Matches α)) (resumes : List Resume) :
    List.Sorted rank_desc
      (prepare_ranked_results resume_scores resume_matches resumes) ∧
    (∀ r ∈ prepare_ranked_results resume_scores resume_matches resumes,
      0 < r.score) ∧
    (prepare_ranked_results resume_scores resume_matches resumes).length
      = (resume_scores.filter (fun p => decide (0 < p.2.score))).length := by
  refine ⟨List.sorted_insertionSort rank_desc _, ?_, ?_⟩
  · intro r hr
    simp only [prepare_ranked_results, List.mem_insertionSort,
      List.mem_map] at hr
    obtain ⟨p, hp, rfl⟩ := hr
    have h := (List.mem_filter.mp hp).2
    simpa using h
  · unfold prepare_ranked_results
    rw [List.length_insertionSort, List.length_map]

/-- Witness for C7 (amended), instantiated at a concrete scores list with
one positive-score candidate. -/
theorem prepare_ranked_results_spec_witness :
    List.Sorted rank_desc
      (prepare_ranked_results (α := ℚ)
        [("A", ⟨1/2, 1/2, 0, 1/5⟩), ("B", ⟨0, 0, 0, 0⟩)] [] []) ∧
    (prepare_ranked_results (α := ℚ)
        [("A", ⟨1/2, 1/2, 0, 1/5⟩), ("B", ⟨0, 0, 0, 0⟩)] [] []).length
      = ([("A", (⟨1/2, 1/2, 0, 1/5⟩ : ScoreInfo ℚ)), ("B", ⟨0, 0, 0, 0⟩)].filter
          (fun p => decide (0 < p.2.score))).length :=
  ⟨(prepare_ranked_results_spec [("A", ⟨1/2, 1/2, 0, 1/5⟩), ("B", ⟨0, 0, 0, 0⟩)]
      [] []).1,
   (prepare_ranked_results_spec [("A", ⟨1/2, 1/2, 0, 1/5⟩), ("B", ⟨0, 0, 0, 0⟩)]
      [] []).2.2⟩

/-- Counterexample for C7 as stated: two candidates with equal positive
scores, inserted in the order `"B"` then `"A"`, are ranked `["B", "A"]` —
ties are broken by dict insertion order (Python's stable sort), not by
owner id ascending as the claim requires; the claim's predicted order at
this input is `["A", "B"]`. -/
theorem prepare_ranked_results_tie_cex :
    (prepare_ranked_results (α := ℚ)
        [("B", ⟨1/2, 1/2, 0, 1/5⟩), ("A", ⟨1/2, 1/2, 0, 1/5⟩)] [] []).map
        (fun r => r.id) = ["B", "A"] ∧
    (["B", "A"] : List String) ≠ ["A", "B"] := by
  constructor
  · norm_num [prepare_ranked_results, lookup_matches, lookup_category,
      List.insertionSort, List.orderedInsert, rank_desc]
  · decide

theorem mem_first_occurrence_keys {α : Type} (rid : String) :
    ∀ (l : List (Stmt × α)) (seen : List String),
      rid ∈ first_occurrence_keys seen l ↔
        rid ∉ seen ∧ ∃ p ∈ l, p.1.resume_id = rid := by
  intro l
  induction l with
  | nil => simp [first_occurrence_keys]
  | cons p ps ih =>
    intro seen
    by_cases h : seen.contains p.1.resume_id
    · have hp : p.1.resume_id ∈ seen := List.elem_iff.mp h
      rw [first_occurrence_keys, if_pos h, ih]
      constructor
      · rintro ⟨hns, q, hq, hqid⟩
        exact ⟨hns, q, List.mem_cons_of_mem p hq, hqid⟩
      · rintro ⟨hns, q, hq, hqid⟩
        refine ⟨hns, ?_⟩
        rcases List.mem_cons.mp hq with rfl | hq2
        · exact absurd (hqid ▸ hp) hns
        · exact ⟨q, hq2, hqid⟩
    · have hp : p.1.resume_id ∉ seen := fun hc => h (List.elem_iff.mpr hc)
      rw [first_occurrence_keys, if_neg h]
      by_cases hr : rid = p.1.resume_id
      · subst hr
        simp only [List.mem_cons, true_or, true_iff]
        exact ⟨hp, p, Or.inl rfl, rfl⟩
      · rw [List.mem_cons]
        constructor
        · rintro (h1 | h2)
          · exact absurd h1 hr
          · obtain ⟨hns, q, hq, hqid⟩ := (ih _).mp h2
            have : rid ∉ seen := fun hc => hns (List.mem_cons_of_mem _ hc)
            exact ⟨this, q, List.mem_cons_of_mem p hq, hqid⟩
        · rintro ⟨hns, q, hq, hqid⟩
          right
          rcases List.mem_cons.mp hq with rfl | hq2
          · exact absurd hqid.symm hr
          · refine (ih _).mpr ⟨?_, q, hq2, hqid⟩
            intro hc
            rcases List.mem_cons.mp hc with h1 | h2
            · exact hr h1
            · exact hns h2

theorem exists_entry_group_by_resume {α : Type} (l : List (Stmt × α))
    (rid : String) :
    (∃ g, (rid, g) ∈ group_by_resume l) ↔ ∃ p ∈ l, p.1.resume_id = rid := by
  unfold group_by_resume
  constructor
  · rintro ⟨g, hg⟩
    obtain ⟨k, hk, heq⟩ := List.mem_map.mp hg
    have hkr : k = rid := congrArg Prod.fst heq
    have hres := ((mem_first_occurrence_keys k l []).mp hk).2
    rwa [hkr] at hres
  · intro h
    refine ⟨l.filter (fun p => p.1.resume_id == rid), ?_⟩
    exact List.mem_map_of_mem _
      ((mem_first_occurrence_keys rid l []).mpr ⟨List.not_mem_nil rid, h⟩)

/-- C4 (amended): in BULK retrieval mode
(`batch_find_all_matching_statements`, via `Matcher.match_new`) a
`(requirement, owner_id)` pair has a `MatchResult` exactly when retrieval
returned at least one statement owned by that resume — zero retrieved
statements means the pair is absent, and aggregation over the resulting
association lists contributes nothing for absent pairs.  (Per-candidate
mode does NOT satisfy this: see the counterexample.) -/
theorem bulk_mode_absence_iff (retrieve : String → List Stmt)
    (rerank : String → String → ℝ) (req : JobRequirement) (rid : String) :
    (∃ mr, (rid, mr) ∈ batch_find_all_for_req retrieve rerank req) ↔
      ∃ s ∈ retrieve req.text, s.resume_id = rid := by
  unfold batch_find_all_for_req
  have hgroups : (∃ mr, (rid, mr) ∈
      (group_by_resume ((retrieve req.text).map
        (fun s => (s, normalize_score (rerank req.text s.text))))).map
        (fun g => (g.1,
          ({ requirement := req
             matched_statements := sort_pairs_desc g.2
             score := max_default 0 ((sort_pairs_desc g.2).map (fun p => p.2)) }
            : MatchResult ℝ)))) ↔
      (∃ g, (rid, g) ∈ group_by_resume ((retrieve req.text).map
        (fun s => (s, normalize_score (rerank req.text s.text))))) := by
    constructor
    · rintro ⟨mr, hmr⟩
      obtain ⟨g, hg, heq⟩ := List.mem_map.mp hmr
      have hkr : g.1 = rid := congrArg Prod.fst heq
      exact ⟨g.2, by rwa [← hkr, Prod.mk.eta]⟩
    · rintro ⟨gl, hgl⟩
      exact ⟨_, List.mem_map_of_mem _ hgl⟩
  rw [hgroups, exists_entry_group_by_resume]
  simp

/-- Counterexample for C4 as stated: in PER-CANDIDATE mode
(`Matcher.match` organizing `batch_find_matching_statements` results,
the very code lines the claim cites), a requirement for which retrieval
finds zero statements of the candidate still yields a `MatchResult` —
present in the matches passed to aggregation, with `best_score = 0` and an
empty statement list — rather than the pair being absent. -/
theorem per_candidate_zero_score_present_cex :
    collect_matches (α := ℚ) (fun _ => []) (fun _ _ => 0) ⟨[reqPython], []⟩ "A"
      = ⟨[⟨reqPython, ⟨reqPython, [], 0⟩⟩], []⟩ := by
  norm_num [collect_matches, all_requirements_of, organize_matches,
    batch_find_matching_statements, lookup_match_result, sort_pairs_desc,
    max_default, List.insertionSort, reqPython]
  decide

theorem metadata_path_ne_index_path (path : String) :
    path ++ ".metadata" ≠ path ++ ".index" := by
  intro h
  have h2 := congrArg String.length h
  rw [String.length_append, String.length_append] at h2
  have h9 : (".metadata" : String).length = 9 := rfl
  have h6 : (".index" : String).length = 6 := rfl
  omega

theorem get_metadata_singleton (db : VectorDB) (i : Int) :
    db.get_metadata [i] = (py_list_get db.metadata i).map (fun x => [x]) := by
  cases h : py_list_get db.metadata i <;>
    simp [VectorDB.get_metadata, List.mapM, List.mapM.loop, h, Except.map]

/-- C6: for every index freshly built by `add(vectors, payloads)`, saving
to a path and loading from that path yields an index on which
`get_payload(i)` returns `payloads[i]` for every in-range position `i` —
the position-payload pairing survives the round trip. -/
theorem save_load_roundtrip (dim : ℕ) (it : IndexType) (vecs : List (List ℝ))
    (pls : List Stmt) (db1 : VectorDB) (vs : List (List ℝ)) (path : String)
    (fs : FS) (i : ℕ) (s : Stmt)
    (hadd : VectorDB.add (VectorDB.init dim it) vecs pls = .ok (db1, vs))
    (hget : pls.get? i = some s) :
    ∃ db2, VectorDB.load path (VectorDB.save db1 path fs) = .ok db2 ∧
      db2.get_metadata [(i : Int)] = .ok [s] := by
  have hmeta : db1.metadata = pls := by
    unfold VectorDB.add at hadd
    split at hadd
    · exact absurd hadd (by simp)
    · simp only [Except.ok.injEq, Prod.mk.injEq] at hadd
      rw [← hadd.1]
      simp [VectorDB.init]
  obtain ⟨hlen, hs⟩ := List.get?_eq_some.mp hget
  have hpy : py_list_get pls (i : Int) = .ok s := by
    unfold py_list_get
    rw [dif_pos ⟨by omega, by omega⟩]
    simp only [Except.ok.injEq]
    exact hs
  refine ⟨⟨db1.index_type, db1.dimension, db1.index_vectors, db1.metadata⟩, ?_, ?_⟩
  · simp [VectorDB.load, VectorDB.save, metadata_path_ne_index_path path]
  · rw [get_metadata_singleton]
    simp [hmeta, hpy, Except.map]

/-- A metadata payload used as concrete input. -/
def stmtEduA : Stmt := ⟨"BSc in CS", "A"⟩

/-- A second metadata payload used as concrete input. -/
def stmtEduB : Stmt := ⟨"MSc in EE", "B"⟩

/-- Witness for C6: a two-dimensional L2 index with one vector and one
payload survives the save/load round trip at position 0. -/
theorem save_load_roundtrip_witness :
    ∃ db2, VectorDB.load "p" (VectorDB.save
        { index_type := IndexType.L2, dimension := 2,
          index_vectors := [[(1:ℝ), 0]], metadata := [stmtEduA] }
        "p" (fun _ => none)) = .ok db2 ∧
      db2.get_metadata [(0 : Int)] = .ok [stmtEduA] :=
  save_load_roundtrip 2 IndexType.L2 [[(1:ℝ), 0]] [stmtEduA]
    { index_type := IndexType.L2, dimension := 2,
      index_vectors := [[(1:ℝ), 0]], metadata := [stmtEduA] }
    [[(1:ℝ), 0]] "p" (fun _ => none) 0 stmtEduA rfl rfl

/-- C8 (amended): `get_payload` follows Python list-subscript semantics:
for `0 ≤ p < n` it returns the payload at position `p`; for `-n ≤ p < 0`
it returns the payload at position `n + p` (Python's negative-index wrap —
no error); it fails with `OutOfRange` exactly when `p ≥ n` or `p < -n`. -/
theorem get_metadata_spec (db : VectorDB) (p : Int) :
    ((db.metadata.length : Int) ≤ p ∨ p < -(db.metadata.length : Int) →
      db.get_metadata [p] = .error .OutOfRange) ∧
    (∀ s, 0 ≤ p → db.metadata.get? p.toNat = some s →
      db.get_metadata [p] = .ok [s]) ∧
    (∀ s, p < 0 → -(db.metadata.length : Int) ≤ p →
      db.metadata.get? ((db.metadata.length : Int) + p).toNat = some s →
      db.get_metadata [p] = .ok [s]) := by
  refine ⟨fun hout => ?_, fun s hpos hget => ?_, fun s hneg hge hget => ?_⟩
  · have hpy : py_list_get db.metadata p = .error .OutOfRange := by
      unfold py_list_get
      rw [dif_neg (by omega), dif_neg (by omega)]
    rw [get_metadata_singleton, hpy]
    rfl
  · obtain ⟨hlen, hs⟩ := List.get?_eq_some.mp hget
    have hpy : py_list_get db.metadata p = .ok s := by
      unfold py_list_get
      rw [dif_pos ⟨hpos, by omega⟩]
      simp only [Except.ok.injEq]
      exact hs
    rw [get_metadata_singleton, hpy]
    rfl
  · obtain ⟨hlen, hs⟩ := List.get?_eq_some.mp hget
    have hpy : py_list_get db.metadata p = .ok s := by
      unfold py_list_get
      rw [dif_neg (by omega), dif_pos ⟨hge, hneg⟩]
      simp only [Except.ok.injEq]
      exact hs
    rw [get_metadata_singleton, hpy]
    rfl

/-- Witness for C8 (amended): on a two-payload index, position 5 is out of
range and fails. -/
theorem get_metadata_spec_witness :
    VectorDB.get_metadata
      { index_type := IndexType.IP, dimension := 2, index_vectors := [],
        metadata := [stmtEduA, stmtEduB] } [(5 : Int)]
      = .error .OutOfRange :=
  (get_metadata_spec
    { index_type := IndexType.IP, dimension := 2, index_vectors := [],
      metadata := [stmtEduA, stmtEduB] } 5).1 (by decide)

/-- Counterexample for C8 as stated: position `-1` is invalid per the
claim (`p < 0`), yet `get_payload` does NOT fail — Python's negative
indexing silently returns the LAST payload. -/
theorem get_metadata_negative_index_cex :
    VectorDB.get_metadata
      { index_type := IndexType.IP, dimension := 2, index_vectors := [],
        metadata := [stmtEduA, stmtEduB] } [(-1 : Int)]
      = .ok [stmtEduB] := by
  have hpy : py_list_get [stmtEduA, stmtEduB] (-1 : Int) = .ok stmtEduB := by
    unfold py_list_get
    rw [dif_neg (by omega), dif_pos (by constructor <;> decide)]
    rfl
  rw [get_metadata_singleton, hpy]
  rfl

/-- C9 (amended): for an inner-product index, `add` with matching lengths
succeeds, and the caller's vector array afterwards holds the
L2-normalizations of the input rows (`faiss.normalize_L2` mutates it in
place) — equal to the values passed in exactly when every row was already
unit-norm; the index gains exactly the normalized vectors and the given
payloads, and nothing else caller-visible changes (the payload list is
appended as passed). -/
theorem add_ip_normalizes (db : VectorDB) (vectors : List (List ℝ))
    (payloads : List Stmt) (hip : db.index_type = IndexType.IP)
    (hlen : vectors.length = payloads.length) :
    VectorDB.add db vectors payloads =
      .ok ({ db with
             index_vectors := db.index_vectors ++ vectors.map normalize_L2,
             metadata := db.metadata ++ payloads },
           vectors.map normalize_L2) := by
  simp [VectorDB.add, hip, hlen]

/-- Witness for C9 (amended): a concrete IP-index `add` of two vectors and
two payloads returns the normalized rows as the caller-visible array. -/
theorem add_ip_normalizes_witness :
    VectorDB.add (VectorDB.init 2 IndexType.IP) [[(1:ℝ), 0], [3, 4]]
        [stmtEduA, stmtEduB] =
      .ok ({ index_type := IndexType.IP, dimension := 2,
             index_vectors := [[(1:ℝ), 0], [3, 4]].map normalize_L2,
             metadata := [stmtEduA, stmtEduB] },
           [[(1:ℝ), 0], [3, 4]].map normalize_L2) :=
  add_ip_normalizes (VectorDB.init 2 IndexType.IP) [[(1:ℝ), 0], [3, 4]]
    [stmtEduA, stmtEduB] rfl rfl

/-- Counterexample for C9 as stated: the batch holding the single non-zero
unit vector `[1, 0]` comes back EQUAL to the values passed in —
L2-normalization is the identity on unit rows, so after the call the
caller's array does NOT differ from the input, contrary to the claim's
"not the values passed in ... for every input batch of non-zero
vectors". -/
theorem add_ip_unit_vector_cex :
    VectorDB.add (VectorDB.init 2 IndexType.IP) [[(1:ℝ), 0]] [stmtEduA] =
      .ok ({ index_type := IndexType.IP, dimension := 2,
             index_vectors := [[(1:ℝ), 0]], metadata := [stmtEduA] },
           [[(1:ℝ), 0]]) := by
  have hn : normalize_L2 [(1:ℝ), 0] = [(1:ℝ), 0] := by
    norm_num [normalize_L2, Real.sqrt_one]
  simp [VectorDB.add, VectorDB.init, hn]
